import Mathlib

/-!
Verification development for the metered AI-chat streaming engine
(multimodal-ai-platform).  The definitions below are a shallow embedding of
the Python source:

* `Usage` and `Usage.ensure_validity`     — app/services/llm/usage.py
* `roundHalfEven`, `quantize6`            — Python Decimal.quantize with the
                                            default ROUND_HALF_EVEN context
* `OpenAIAdapter.calculate_cost`,
  `GeminiAdapter.calculate_cost`,
  `ClaudeAdapter.calculate_cost`          — the three adapter files
* `LLMFactory.calculateCost`              — app/services/llm/factory.py
* the regex scorer and
  `ModelRouter.determine_model`           — app/services/llm/router.py
* `buildContext`                          — chat.py lines 422-432
* the gateway state machine
  (`openSession`, `loopStep`, `runLoop`)  — chat.py websocket_endpoint
* `walletDebit` / `applyDebits`           — chat.py lines 494-503

Machine integers are modelled as `Nat`; Python `Decimal` values are modelled
as `ℚ` (every decimal literal in the source is exactly representable).
-/

/-! ### Usage meter (app/services/llm/usage.py) -/

/-- Mutable container for token usage statistics (usage.py lines 4-15),
modelled as an immutable record that the operations return updated. -/
structure Usage where
  prompt_tokens : Nat := 0
  completion_tokens : Nat := 0
deriving DecidableEq, Repr

/-- Python property total_tokens (usage.py line 13-15). -/
def Usage.total_tokens (u : Usage) : Nat :=
  u.prompt_tokens + u.completion_tokens

/-- Exact value of Python math.ceil(n / 4) for a natural n. -/
def ceilDiv4 (n : Nat) : Nat := (n + 3) / 4

/-- Fallback estimator (usage.py lines 17-28).  A field that is still 0 and
whose corresponding text is non-empty (Python string truthiness) is replaced
by ceil(len(text) / 4). -/
def Usage.ensure_validity (u : Usage) (prompt_text completion_text : String) : Usage :=
  let p := if u.prompt_tokens = 0 ∧ prompt_text ≠ "" then ceilDiv4 prompt_text.length
           else u.prompt_tokens
  let c := if u.completion_tokens = 0 ∧ completion_text ≠ "" then ceilDiv4 completion_text.length
           else u.completion_tokens
  ⟨p, c⟩

/-! ### Decimal quantization (Python decimal module, default context) -/

/-- Round a rational to the nearest integer, ties to even: the rounding mode
ROUND_HALF_EVEN used by Decimal.quantize in the adapters. -/
def roundHalfEven (q : ℚ) : ℤ :=
  let f : ℤ := ⌊q⌋
  let r : ℚ := q - (f : ℚ)
  if r < 1/2 then f
  else if 1/2 < r then f + 1
  else if f % 2 = 0 then f else f + 1

/-- Python Decimal.quantize(Decimal(&quot;0.000001&quot;)): round to 6 decimal
places, ties to even. -/
def quantize6 (q : ℚ) : ℚ :=
  (roundHalfEven (q * 1000000) : ℚ) / 1000000

/-! ### Pricing tiers and the three adapters -/

/-- One entry of an adapter's pricing dict: USD per 1M tokens. -/
structure PriceTier where
  input : ℚ
  output : ℚ
deriving DecidableEq, Repr

namespace OpenAIAdapter

/-- 4X profit margin (openai_adapter.py line 14). -/
def PROFIT_MARGIN : ℚ := 4.0

/-- USD to credits conversion (openai_adapter.py line 15). -/
def USD_TO_CREDITS_RATE : ℚ := 10.0

/-- Pricing table (openai_adapter.py lines 25-29). -/
def pricing : List (String × PriceTier) :=
  [("gpt-5.2-pro", ⟨5.00, 15.00⟩),
   ("gpt-5.2", ⟨2.50, 10.00⟩),
   ("gpt-5-mini", ⟨0.15, 0.60⟩)]

/-- Cost function (openai_adapter.py lines 31-51).  The Python
self.pricing.get(model, self.pricing[&quot;gpt-5.2&quot;]) default is the
gpt-5.2 tier. -/
def calculate_cost (usage : Usage) (model : String) : ℚ :=
  let price_tier := (pricing.lookup model).getD ⟨2.50, 10.00⟩
  let input_cost := ((usage.prompt_tokens : ℚ) / 1000000) * price_tier.input
  let output_cost := ((usage.completion_tokens : ℚ) / 1000000) * price_tier.output
  let base_cost := input_cost + output_cost
  let total_price_in_usd := base_cost * PROFIT_MARGIN
  let total_price_to_user := total_price_in_usd * USD_TO_CREDITS_RATE
  quantize6 total_price_to_user

end OpenAIAdapter

namespace GeminiAdapter

/-- Profit margin (gemini_adapter.py line 14). -/
def PROFIT_MARGIN : ℚ := 4.0

/-- USD to credits conversion (gemini_adapter.py line 15). -/
def USD_TO_CREDITS_RATE : ℚ := 10.0

/-- Pricing table (gemini_adapter.py lines 23-40). -/
def pricing : List (String × PriceTier) :=
  [("gemini-3-pro-preview", ⟨3.00, 15.00⟩),
   ("gemini-2.5-pro", ⟨1.88, 12.50⟩),
   ("gemini-3-flash-preview", ⟨0.50, 3.00⟩),
   ("gemini-2.5-flash", ⟨0.30, 2.50⟩)]

/-- Cost function (gemini_adapter.py lines 43-56); the dict default is the
gemini-3-flash-preview tier. -/
def calculate_cost (usage : Usage) (model : String) : ℚ :=
  let price_tier := (pricing.lookup model).getD ⟨0.50, 3.00⟩
  let input_cost := ((usage.prompt_tokens : ℚ) / 1000000) * price_tier.input
  let output_cost := ((usage.completion_tokens : ℚ) / 1000000) * price_tier.output
  let base_cost := input_cost + output_cost
  let total_price_in_usd := base_cost * PROFIT_MARGIN
  let total_price_to_user := total_price_in_usd * USD_TO_CREDITS_RATE
  quantize6 total_price_to_user

end GeminiAdapter

namespace ClaudeAdapter

/-- Profit margin (claude_adapter.py line 12). -/
def PROFIT_MARGIN : ℚ := 4.0

/-- USD to credits conversion (claude_adapter.py line 13). -/
def USD_TO_CREDITS_RATE : ℚ := 10.0

/-- Pricing table (claude_adapter.py lines 22-26). -/
def pricing : List (String × PriceTier) :=
  [("claude-4.5-opus", ⟨5.00, 25.00⟩),
   ("claude-4.5-sonnet", ⟨3.00, 15.00⟩),
   ("claude-4.5-haiku", ⟨1.00, 5.00⟩)]

/-- Cost function (claude_adapter.py lines 35-48); the dict default is the
claude-4.5-sonnet tier. -/
def calculate_cost (usage : Usage) (model : String) : ℚ :=
  let price_tier := (pricing.lookup model).getD ⟨3.00, 15.00⟩
  let input_cost := ((usage.prompt_tokens : ℚ) / 1000000) * price_tier.input
  let output_cost := ((usage.completion_tokens : ℚ) / 1000000) * price_tier.output
  let base_cost := input_cost + output_cost
  let total_price_in_usd := base_cost * PROFIT_MARGIN
  let total_price_to_user := total_price_in_usd * USD_TO_CREDITS_RATE
  quantize6 total_price_to_user

end ClaudeAdapter

/-! ### Provider registry (app/services/llm/factory.py) -/

/-- Python str.lower(), written over the character list so that it reduces
in the kernel (String.toLower itself is defined by well-founded recursion). -/
def strLower (s : String) : String := ⟨s.data.map Char.toLower⟩

/-- Python str.startswith(pre). -/
def strStartsWith (s pre : String) : Bool := pre.data.isPrefixOf s.data

namespace LLMFactory

/-- Resolve the backend by model-name family (factory.py lines 12-26) and
apply its cost function; none models the ValueError for an unsupported
model. -/
def calculateCost (model : String) (usage : Usage) : Option ℚ :=
  let model_id := strLower model
  if strStartsWith model_id "gpt" then some (OpenAIAdapter.calculate_cost usage model)
  else if strStartsWith model_id "gemini" then some (GeminiAdapter.calculate_cost usage model)
  else if strStartsWith model_id "claude" then some (ClaudeAdapter.calculate_cost usage model)
  else none

end LLMFactory

/-! ### Model router (app/services/llm/router.py)

Every router pattern has the shape \b(w1|w2|...)\b where each alternative is
a literal word (the only non-literal construct, the optional dot in
next\.?js and node\.?js, is expanded into the two alternatives in the greedy
preference order).  The scanner below implements Python re.findall on such
patterns: scan left to right, at each position require a word boundary, try
the alternatives in order, require the closing word boundary, and resume
after the end of a successful non-overlapping match. -/

/-- ASCII fragment of the regex word class used by the boundary \b. -/
def isWordChar (c : Char) : Bool := c.isAlphanum || c == '_'

/-- Word-ness of an optional character; the virtual positions before the
first and after the last character count as non-word. -/
def isWordOpt : Option Char → Bool
  | none => false
  | some c => isWordChar c

/-- The regex boundary \b between two adjacent (possibly virtual)
characters. -/
def wordBoundary (a b : Option Char) : Bool := isWordOpt a != isWordOpt b

/-- Match one literal alternative at the head of the text; on success return
the last matched character (needed for the closing boundary) and the rest of
the text. -/
def matchWord : List Char → List Char → Option (Char × List Char)
  | [], _ => none
  | _ :: _, [] => none
  | [p], c :: rest => if p == c then some (c, rest) else none
  | p :: q :: ps, c :: rest => if p == c then matchWord (q :: ps) rest else none

/-- Try the alternatives of one pattern in order at the current position; an
alternative succeeds only if the closing \b holds after it (otherwise the
regex engine backtracks to the next alternative). -/
def tryAlts : List (List Char) → List Char → Option (Char × List Char)
  | [], _ => none
  | alt :: alts, cs =>
    match matchWord alt cs with
    | some (lastc, rest) =>
      if wordBoundary (some lastc) rest.head? then some (lastc, rest)
      else tryAlts alts cs
    | none => tryAlts alts cs

/-- Count the findall matches of one pattern.  The fuel argument only bounds
the number of scan positions (one unit per examined position); since every
step also consumes at least one character, fuel = length of the text is
always sufficient and the function is total structural recursion. -/
def scanFuel (alts : List (List Char)) : Nat → Option Char → List Char → Nat
  | 0, _, _ => 0
  | _, _, [] => 0
  | fuel + 1, prev, c :: rest =>
    if wordBoundary prev (some c) then
      match tryAlts alts (c :: rest) with
      | some (lastc, rest2) => 1 + scanFuel alts fuel (some lastc) rest2
      | none => scanFuel alts fuel (some c) rest
    else scanFuel alts fuel (some c) rest

/-- Number of non-overlapping matches of the pattern with the given
alternatives in the text: Python len(re.findall(pattern, text)). -/
def scanCount (alts : List (List Char)) (cs : List Char) : Nat :=
  scanFuel alts cs.length none cs

namespace ModelRouter

/-- Python classmethod _calculate_score (router.py lines 87-95): lowercase
the text and sum the findall match counts of every pattern of the
category. -/
def calculateScore (text : String) (patterns : List (List String)) : Nat :=
  let text_lower := text.data.map Char.toLower
  (patterns.map (fun p => scanCount (p.map String.toList) text_lower)).sum

/-- router.py lines 11-35. -/
def CODING_PATTERNS : List (List String) :=
  [["def", "class", "import", "function", "const", "let", "var", "return", "await", "async"],
   ["struct", "impl", "interface", "package", "namespace", "void", "public", "private"],
   ["python", "javascript", "typescript", "golang", "rust", "java", "c++", "swift", "kotlin"],
   ["bash", "shell", "powershell", "zsh", "chmod", "sudo", "grep", "sed", "awk"],
   ["react", "vue", "angular", "svelte", "next.js", "nextjs", "nuxt", "node.js", "nodejs", "express"],
   ["fastapi", "django", "flask", "spring boot", "laravel", "rails", "asp.net"],
   ["tailwind", "bootstrap", "css", "sass", "html", "jsx", "tsx", "component"],
   ["redux", "zustand", "context api", "hooks", "middleware", "auth"],
   ["docker", "kubernetes", "k8s", "aws", "azure", "gcp", "terraform", "ansible"],
   ["git", "github", "gitlab", "ci/cd", "pipeline", "jenkins", "actions"],
   ["npm", "pip", "yarn", "cargo", "maven", "gradle", "composer"],
   ["linux", "ubuntu", "centos", "debian", "alpine", "ssh", "nginx", "apache"],
   ["bug", "error", "exception", "stacktrace", "traceback", "undefined", "null", "segfault"],
   ["refactor", "optimize", "complexity", "big o", "algorithm", "structure"],
   ["api", "rest", "graphql", "grpc", "websocket", "endpoint", "json", "xml", "yaml"],
   ["db", "database", "sql", "postgres", "mysql", "mongodb", "redis", "orm", "sqlalchemy"]]

/-- router.py lines 37-53. -/
def REASONING_PATTERNS : List (List String) :=
  [["solve", "calculate", "compute", "prove", "derive", "evaluate"],
   ["math", "algebra", "calculus", "geometry", "trigonometry", "statistics", "probability"],
   ["logic", "theorem", "axiom", "lemma", "proof", "contradiction", "fallacy"],
   ["analyze", "critique", "compare", "contrast", "pros and cons", "trade-off"],
   ["strategy", "plan", "roadmap", "methodology", "framework", "approach"],
   ["why", "how does", "explain", "implication", "consequence", "causality"],
   ["troubleshoot", "diagnose", "root cause", "investigate"],
   ["physics", "chemistry", "biology", "quantum", "relativity", "thermodynamics"],
   ["research", "hypothesis", "experiment", "study", "citation", "reference"],
   ["economic", "market", "financial", "investment", "crypto", "blockchain"]]

/-- router.py lines 55-70. -/
def CREATIVE_PATTERNS : List (List String) :=
  [["write", "compose", "draft", "create", "generate", "brainstorm"],
   ["story", "poem", "essay", "blog", "article", "email", "letter", "speech"],
   ["script", "screenplay", "dialogue", "lyrics", "song", "haiku", "sonnet"],
   ["tweet", "post", "caption", "headline", "tagline", "slogan", "copy"],
   ["imagine", "scenario", "fiction", "fantasy", "sci-fi", "plot", "twist"],
   ["character", "protagonist", "antagonist", "setting", "world-building"],
   ["tone", "style", "voice", "mood", "atmosphere", "metaphor", "simile"],
   ["marketing", "proposal", "pitch", "presentation", "resume", "cover letter"],
   ["branding", "identity", "mission", "vision", "value proposition"]]

/-- router.py lines 72-85. -/
def DATA_PATTERNS : List (List String) :=
  [["summarize", "summary", "extract", "key points", "tl;dr", "abstract"],
   ["visualize", "plot", "chart", "graph", "dashboard", "heatmap"],
   ["clean", "transform", "process", "parse", "scrape", "crawl"],
   ["dataset", "csv", "excel", "spreadsheet", "dataframe", "jsonl", "parquet"],
   ["pandas", "numpy", "matplotlib", "seaborn", "scikit", "pytorch", "tensorflow"],
   ["pattern", "trend", "insight", "correlation", "outlier", "anomaly"],
   ["report", "audit", "review", "assessment", "log analysis"]]

/-- Decision logic of determine_model after the user-override check
(router.py lines 107-139). -/
def route_by_score (prompt : String) : String :=
  let coding_score := calculateScore prompt CODING_PATTERNS
  let reasoning_score := calculateScore prompt REASONING_PATTERNS
  let creative_score := calculateScore prompt CREATIVE_PATTERNS
  let data_score := calculateScore prompt DATA_PATTERNS
  if coding_score > 0 ∧ coding_score ≥ Nat.max reasoning_score (Nat.max creative_score data_score) then
    "claude-4.5-opus"
  else if (data_score > 0 ∧ data_score ≥ Nat.max reasoning_score creative_score) ∨ prompt.length > 4000 then
    "gemini-2.5-pro"
  else if reasoning_score > 0 ∧ reasoning_score ≥ Nat.max creative_score data_score then
    "gpt-5.2-pro"
  else if creative_score > 0 then
    "gemini-2.5-pro"
  else if prompt.length < 150 then
    "gemini-3-flash-preview"
  else
    "gpt-5.2"

/-- router.py lines 97-139.  The Python guard
(user_preference and user_preference.lower() != &quot;auto&quot;) is truthiness
(not None, not empty) plus the case-insensitive comparison. -/
def determine_model (prompt : String) (user_preference : Option String) : String :=
  match user_preference with
  | some pref => if pref ≠ "" ∧ strLower pref ≠ "auto" then pref else route_by_score prompt
  | none => route_by_score prompt

end ModelRouter

/-! ### Chat schema (app/services/llm/schema.py) -/

/-- schema.py lines 6-8. -/
structure ContentBlock where
  text : String
deriving DecidableEq, Repr

/-- schema.py lines 10-19. -/
structure Attachment where
  type : String
  content : String
  mime_type : Option String
deriving DecidableEq, Repr

/-- schema.py lines 21-24. -/
structure ChatMessage where
  role : String
  content : List ContentBlock
  attachments : List Attachment
deriving DecidableEq, Repr

/-- schema.py lines 26-36. -/
def ChatMessage.from_text (role text : String) : ChatMessage :=
  ⟨role, [⟨text⟩], []⟩

/-! ### Context deduplication (chat.py lines 422-432) -/

/-- The dedup test of chat.py line 429: the history is non-empty, its last
entry has role user, and the text of its first content block equals the
current turn's text.  (Python indexes content[0]; an entry with an empty
content list would raise, but every entry produced by the pipeline comes
from ChatMessage.from_text, whose content is a singleton, so the none branch
below is unreachable there.) -/
def lastMatchesCurrent (conversation_history : List ChatMessage) (user_text : String) : Bool :=
  match conversation_history.getLast? with
  | none => false
  | some m =>
    m.role == "user" &&
      (match m.content.head? with
       | some b => b.text == user_text
       | none => false)

/-- chat.py lines 429-432: replace the last history entry by the
attachment-resolved current message, or append it. -/
def buildContext (conversation_history : List ChatMessage) (latest_msg : ChatMessage)
    (user_text : String) : List ChatMessage :=
  if lastMatchesCurrent conversation_history user_text then
    conversation_history.dropLast ++ [latest_msg]
  else
    conversation_history ++ [latest_msg]

/-! ### Billing ledger (chat.py lines 494-503) -/

/-- The atomic relative wallet update issued by the gateway:
UPDATE wallet SET credits = credits - cost.  The statement applies the delta
to the balance current at execution time, never an absolute write. -/
def walletDebit (balance cost : ℚ) : ℚ := balance - cost

/-- A serialization of N concurrent debits: atomic updates against one row
apply one after another in some order. -/
def applyDebits (balance : ℚ) (costs : List ℚ) : ℚ := costs.foldl walletDebit balance

/-! ### Session gateway (chat.py websocket_endpoint, lines 212-570)

The event loop is embedded as a step function on an explicit session state.
The awaited externals of one turn (the id the store assigns to a lazily
created chat, the text accumulated from the provider stream, the usage the
provider reported, and how the bounded wait ended) enter as an oracle
record; frames sent to the client and durable-store writes leave as lists.
Websocket sends are modelled as succeeding while the peer is connected, and
best-effort cache/persistence failures (which the code logs and ignores) are
not modelled; no claim below depends on either. -/

/-- Python str.strip() produces the empty string iff the text is all
whitespace; this is the truthiness test used at chat.py lines 303 and 486. -/
def pyStripEmpty (s : String) : Bool := s.data.all Char.isWhitespace

/-- Server-to-client frames (chat.py send_json payloads). -/
inductive OutFrame
  | errorFrame (message : String)
  | systemFrame (event : String) (payload : String)
  | contentFrame (delta : String)
deriving DecidableEq, Repr

/-- Durable-store writes the turn pipeline performs. -/
inductive DbEffect
  | insertChat (chatId : Nat) (title : String)
  | insertUserMsg (chatId : Nat) (content : String) (model : String)
  | debitWallet (amount : ℚ)
  | insertAiMsg (chatId : Nat) (content : String) (model : String) (cost : ℚ) (tokens : Nat)
deriving DecidableEq, Repr

/-- Whether a store write belongs to the billing/AI-persistence step of the
turn (the writes a skipped turn must not perform). -/
def DbEffect.isBilling : DbEffect → Bool
  | .debitWallet _ => true
  | .insertAiMsg _ _ _ _ _ => true
  | _ => false

/-- chat.py lines 122-125 (attachments omitted: the modelled runs carry
none). -/
structure UserMessagePayload where
  type : String
  content : String
deriving DecidableEq, Repr

/-- One received websocket frame, after the external json.loads plus
pydantic validation (chat.py lines 283-296): either it failed to parse or it
yielded a payload. -/
inductive ClientFrame
  | malformed
  | valid (payload : UserMessagePayload)
deriving DecidableEq, Repr

/-- How the bounded wait on the generation task ended
(chat.py lines 462-482). -/
inductive StreamOutcome
  | completed
  | timeout
  | disconnected
  | cancelled
  | errored (message : String)
deriving DecidableEq, Repr

/-- Oracle for the awaited externals of one turn. -/
structure TurnEvents where
  newChatId : Nat
  streamed : String
  reported : Usage
  outcome : StreamOutcome
deriving DecidableEq, Repr

/-- The per-connection state of the websocket handler. -/
structure GatewayState where
  is_connected : Bool
  preference : String
  current_chat_id : Option Nat
  balance : ℚ
deriving DecidableEq, Repr

/-- Connect-time sequence (chat.py lines 233-274): the wallet is loaded once
read-only; no wallet or credits ≤ 0 sends an error frame and closes.
chatParam is the chat_id query parameter already resolved against ownership
(lines 261-272); none models a rejected connection. -/
def openSession (preference : String) (chatParam : Option Nat) (wallet : Option ℚ) :
    Option GatewayState :=
  match wallet with
  | none => none
  | some credits =>
    if credits ≤ 0 then none
    else some { is_connected := true, preference := preference,
                current_chat_id := chatParam, balance := credits }

/-- Lazy chat title (chat.py lines 302-312), for the text-only turns the
model covers (no attachments, so the elif branch is the else). -/
def chatTitle (user_text : String) : String :=
  if user_text ≠ "" ∧ ¬pyStripEmpty user_text then
    if user_text.length > 40 then String.mk (user_text.data.take 40) ++ "..." else user_text
  else "New Chat"

/-- Turn pipeline for one user_message frame (chat.py lines 300-544). -/
def processTurn (st : GatewayState) (user_text : String) (ev : TurnEvents) :
    GatewayState × List OutFrame × List DbEffect :=
  -- Lazy chat creation (lines 300-331)
  let chatId := st.current_chat_id.getD ev.newChatId
  let chatFrames : List OutFrame :=
    match st.current_chat_id with
    | some _ => []
    | none => [.systemFrame "chat_id" (toString ev.newChatId)]
  let chatEffects : List DbEffect :=
    match st.current_chat_id with
    | some _ => []
    | none => [.insertChat ev.newChatId (chatTitle user_text)]
  -- Model routing (lines 333-342)
  let selected_model := ModelRouter.determine_model user_text (some st.preference)
  let routeFrames := [OutFrame.systemFrame "route" selected_model]
  -- User-message persistence (lines 375-386)
  let userMsgEffects := [DbEffect.insertUserMsg chatId user_text selected_model]
  -- Generation (lines 435-482): chunks were forwarded as content frames
  -- while streaming; the oracle supplies the accumulated text, the reported
  -- usage, and how the bounded wait ended
  let full_response := ev.streamed
  let contentFrames := if full_response ≠ "" then [OutFrame.contentFrame full_response] else []
  let connAfter := match ev.outcome with
    | .disconnected => false
    | .cancelled => false
    | _ => st.is_connected
  let errFrames : List OutFrame := match ev.outcome with
    | .timeout => [.errorFrame "Error: Timeout"]
    | .errored msg => [.errorFrame ("Error: " ++ msg)]
    | _ => []
  let isErrOutcome : Bool := match ev.outcome with
    | .errored _ => true
    | _ => false
  let preFrames := chatFrames ++ routeFrames ++ contentFrames ++ errFrames
  -- lines 481-482: a generic backend exception with no accumulated text
  -- continues the loop before any settlement
  if isErrOutcome ∧ full_response = "" then
    ({ st with current_chat_id := some chatId, is_connected := connAfter },
     preFrames, chatEffects ++ userMsgEffects)
  else
    -- Validity check (lines 484-489)
    let usage := ev.reported.ensure_validity user_text full_response
    if pyStripEmpty full_response ∧ usage.total_tokens = 0 then
      ({ st with current_chat_id := some chatId, is_connected := connAfter },
       preFrames, chatEffects ++ userMsgEffects)
    else
      -- Billing, atomic debit, AI-message persistence (lines 491-544)
      match LLMFactory.calculateCost selected_model usage with
      | none =>
        -- get_provider raised for an unsupported model family; the outer
        -- handler closes the socket with code 1011 (lines 563-565)
        ({ st with current_chat_id := some chatId, is_connected := false },
         preFrames, chatEffects ++ userMsgEffects)
      | some total_cost_to_user =>
        let newBalance := walletDebit st.balance total_cost_to_user
        let warnFrames := if newBalance < 0 then
            [OutFrame.systemFrame "warning" "Balance exhausted. Please top up."] else []
        let costFrames := if connAfter then
            [OutFrame.systemFrame "cost" (toString total_cost_to_user)] else []
        ({ st with current_chat_id := some chatId, is_connected := connAfter,
                   balance := newBalance },
         preFrames ++ warnFrames ++ costFrames,
         chatEffects ++ userMsgEffects ++
           [DbEffect.debitWallet total_cost_to_user,
            DbEffect.insertAiMsg chatId full_response selected_model total_cost_to_user
              usage.total_tokens])

/-- One iteration of the receive loop (chat.py lines 277-296 dispatch). -/
def loopStep (st : GatewayState) (frame : ClientFrame) (ev : TurnEvents) :
    GatewayState × List OutFrame × List DbEffect :=
  match frame with
  | .malformed => (st, [.errorFrame "Invalid message format"], [])
  | .valid payload =>
    if payload.type ≠ "user_message" then (st, [], [])
    else processTurn st payload.content ev

/-- The receive loop: while is_connected, take a frame and run one
iteration (chat.py line 277, with the break at lines 546-548 realised by the
loop condition). -/
def runLoop (st : GatewayState) : List (ClientFrame × TurnEvents) →
    GatewayState × List OutFrame × List DbEffect
  | [] => (st, [], [])
  | (frame, ev) :: rest =>
    if st.is_connected then
      let step := loopStep st frame ev
      let tail := runLoop step.1 rest
      (tail.1, step.2.1 ++ tail.2.1, step.2.2 ++ tail.2.2)
    else (st, [], [])

/-! ### Spec-side cost formula (for comparison with the adapters) -/

/-- The unquantized cost formula exactly as the spec words it:
((prompt_tokens/1M × input_rate) + (completion_tokens/1M × output_rate)) ×
margin_multiplier × currency_to_credit_rate. -/
def specCostFormula (tier : PriceTier) (margin rate : ℚ) (u : Usage) : ℚ :=
  (((u.prompt_tokens : ℚ) / 1000000) * tier.input +
   ((u.completion_tokens : ℚ) / 1000000) * tier.output) * margin * rate

/-! ### Helper lemmas -/

/-- A non-empty string has positive length. -/
theorem strLengthPos {s : String} (h : s ≠ "") : 0 < s.length := by
  cases s with
  | mk l =>
    cases l with
    | nil => exact absurd rfl h
    | cons c cs => simp [String.length]

/-- The token estimate of a non-empty text is positive. -/
theorem ceilDiv4_pos {n : Nat} (h : 0 < n) : 0 < ceilDiv4 n := by
  unfold ceilDiv4; omega

/-- The half-even rounding never goes below the floor. -/
theorem roundHalfEven_lb (q : ℚ) : ⌊q⌋ ≤ roundHalfEven q := by
  unfold roundHalfEven
  dsimp only
  split_ifs <;> omega

/-- The half-even rounding never exceeds the floor plus one. -/
theorem roundHalfEven_ub (q : ℚ) : roundHalfEven q ≤ ⌊q⌋ + 1 := by
  unfold roundHalfEven
  dsimp only
  split_ifs <;> omega

/-- The half-even rounding is within one half of its argument. -/
theorem roundHalfEven_err (q : ℚ) : |(roundHalfEven q : ℚ) - q| ≤ 1/2 := by
  have h1 : ((⌊q⌋ : ℤ) : ℚ) ≤ q := Int.floor_le q
  have h2 : q < (⌊q⌋ : ℤ) + 1 := Int.lt_floor_add_one q
  unfold roundHalfEven
  dsimp only
  split_ifs with ha hb hc <;> rw [abs_le] <;> constructor <;> push_cast <;> linarith

/-- The half-even rounding is monotone. -/
theorem roundHalfEven_mono {q r : ℚ} (h : q ≤ r) : roundHalfEven q ≤ roundHalfEven r := by
  rcases lt_or_eq_of_le (Int.floor_le_floor h) with hf | hf
  · have h1 := roundHalfEven_ub q
    have h2 := roundHalfEven_lb r
    omega
  · unfold roundHalfEven
    dsimp only
    rw [hf]
    split_ifs <;> first | omega | (exfalso; linarith)

/-- quantize6 is monotone. -/
theorem quantize6_mono {q r : ℚ} (h : q ≤ r) : quantize6 q ≤ quantize6 r := by
  unfold quantize6
  have := roundHalfEven_mono (mul_le_mul_of_nonneg_right h (by norm_num : (0:ℚ) ≤ 1000000))
  have hcast : ((roundHalfEven (q * 1000000) : ℤ) : ℚ) ≤ ((roundHalfEven (r * 1000000) : ℤ) : ℚ) := by
    exact_mod_cast this
  linarith

/-- quantize6 changes its argument by at most half of the last kept digit. -/
theorem quantize6_err (q : ℚ) : |quantize6 q - q| ≤ 1/2000000 := by
  unfold quantize6
  have h := roundHalfEven_err (q * 1000000)
  rw [abs_le] at h ⊢
  constructor <;> linarith [h.1, h.2]

/-! ### Claim theorems -/

/-- C5: for every Usage value and pair of texts, after ensure_validity a
field that was zero whose corresponding text is non-empty equals
ceil(len(text)/4), and both fields are never zero while either text is
non-empty. -/
theorem ensure_validity_estimates (u : Usage) (pt ct : String) :
    (u.prompt_tokens = 0 → pt ≠ "" →
        (u.ensure_validity pt ct).prompt_tokens = ceilDiv4 pt.length) ∧
    (u.completion_tokens = 0 → ct ≠ "" →
        (u.ensure_validity pt ct).completion_tokens = ceilDiv4 ct.length) ∧
    ¬((pt ≠ "" ∨ ct ≠ "") ∧ (u.ensure_validity pt ct).prompt_tokens = 0 ∧
        (u.ensure_validity pt ct).completion_tokens = 0) := by
  refine ⟨fun h0 hne => ?_, fun h0 hne => ?_, fun ⟨hor, hp, hc⟩ => ?_⟩
  · simp [Usage.ensure_validity, h0, hne]
  · simp [Usage.ensure_validity, h0, hne]
  · rcases hor with hne | hne
    · by_cases h0 : u.prompt_tokens = 0
      · have := ceilDiv4_pos (strLengthPos hne)
        simp [Usage.ensure_validity, h0, hne] at hp
        omega
      · simp [Usage.ensure_validity, h0] at hp
    · by_cases h0 : u.completion_tokens = 0
      · have := ceilDiv4_pos (strLengthPos hne)
        simp [Usage.ensure_validity, h0, hne] at hc
        omega
      · simp [Usage.ensure_validity, h0] at hc

/-- C5 witness at a concrete input. -/
theorem ensure_validity_estimates_witness :
    (Usage.ensure_validity ⟨0, 0⟩ "hi" "okay").prompt_tokens = ceilDiv4 2 ∧
    (Usage.ensure_validity ⟨0, 0⟩ "hi" "okay").completion_tokens = ceilDiv4 4 := by
  have h := ensure_validity_estimates ⟨0, 0⟩ "hi" "okay"
  exact ⟨h.1 rfl (by decide), h.2.1 rfl (by decide)⟩

/-- C10: ensure_validity is idempotent, and a field that is already non-zero
is left unchanged. -/
theorem ensure_validity_idempotent (u : Usage) (pt ct : String) :
    (u.ensure_validity pt ct).ensure_validity pt ct = u.ensure_validity pt ct ∧
    (u.prompt_tokens ≠ 0 → (u.ensure_validity pt ct).prompt_tokens = u.prompt_tokens) ∧
    (u.completion_tokens ≠ 0 →
        (u.ensure_validity pt ct).completion_tokens = u.completion_tokens) := by
  obtain ⟨up, uc⟩ := u
  refine ⟨?_, fun h0 => by simp [Usage.ensure_validity, h0], fun h0 => by
    simp [Usage.ensure_validity, h0]⟩
  have hP : ∀ n : Nat, ¬((if n = 0 ∧ pt ≠ "" then ceilDiv4 pt.length else n) = 0 ∧ pt ≠ "") := by
    rintro n ⟨hn, hne⟩
    by_cases h : n = 0 ∧ pt ≠ ""
    · rw [if_pos h] at hn
      exact absurd hn (Nat.ne_of_gt (ceilDiv4_pos (strLengthPos hne)))
    · rw [if_neg h] at hn
      exact h ⟨hn, hne⟩
  have hC : ∀ n : Nat, ¬((if n = 0 ∧ ct ≠ "" then ceilDiv4 ct.length else n) = 0 ∧ ct ≠ "") := by
    rintro n ⟨hn, hne⟩
    by_cases h : n = 0 ∧ ct ≠ ""
    · rw [if_pos h] at hn
      exact absurd hn (Nat.ne_of_gt (ceilDiv4_pos (strLengthPos hne)))
    · rw [if_neg h] at hn
      exact h ⟨hn, hne⟩
  simp only [Usage.ensure_validity]
  congr 1
  · exact if_neg (hP up)
  · exact if_neg (hC uc)

/-- C10 witness at a concrete input. -/
theorem ensure_validity_idempotent_witness :
    (Usage.ensure_validity ⟨3, 0⟩ "hi" "okay").ensure_validity "hi" "okay" =
      Usage.ensure_validity ⟨3, 0⟩ "hi" "okay" ∧
    (Usage.ensure_validity ⟨3, 0⟩ "hi" "okay").prompt_tokens = 3 := by
  have h := ensure_validity_idempotent ⟨3, 0⟩ "hi" "okay"
  exact ⟨h.1, h.2.1 (by decide)⟩

/-- C6: debits expressed as atomic relative updates lose no update: any
serialization of the N updates ends with the initial balance minus the sum
of all individual costs, independently of the interleaving order. -/
theorem concurrent_debits_no_lost_updates (balance : ℚ) (costs : List ℚ) :
    applyDebits balance costs = balance - costs.sum ∧
    ∀ costs2, costs2.Perm costs → applyDebits balance costs2 = balance - costs.sum := by
  have key : ∀ (cs : List ℚ) (b : ℚ), applyDebits b cs = b - cs.sum := by
    intro cs
    induction cs with
    | nil => intro b; simp [applyDebits]
    | cons c cs ih =>
      intro b
      have hstep : applyDebits b (c :: cs) = applyDebits (b - c) cs := rfl
      rw [hstep, ih, List.sum_cons]
      ring
  refine ⟨key costs balance, fun costs2 hperm => ?_⟩
  rw [key costs2 balance, hperm.sum_eq]

/-- C6 witness at a concrete interleaving. -/
theorem concurrent_debits_no_lost_updates_witness :
    applyDebits 10 [3, 7] = 10 - ([3, 7] : List ℚ).sum ∧
    applyDebits 10 [7, 3] = 10 - ([3, 7] : List ℚ).sum := by
  have h := concurrent_debits_no_lost_updates 10 [3, 7]
  exact ⟨h.1, h.2 [7, 3] (List.Perm.swap 3 7 [])⟩

/-- Tiers drawn from a table of non-negative rates (or the default) have
non-negative rates. -/
theorem lookup_tier_nonneg (d : PriceTier) (hd : 0 ≤ d.input ∧ 0 ≤ d.output) (model : String) :
    ∀ l : List (String × PriceTier), (∀ p ∈ l, 0 ≤ p.2.input ∧ 0 ≤ p.2.output) →
      0 ≤ ((l.lookup model).getD d).input ∧ 0 ≤ ((l.lookup model).getD d).output := by
  intro l
  induction l with
  | nil => intro _; simpa [List.lookup] using hd
  | cons p t ih =>
    intro hl
    obtain ⟨k, v⟩ := p
    rw [List.lookup_cons]
    cases h : (model == k)
    · exact ih fun q hq => hl q (List.mem_cons_of_mem _ hq)
    · simpa using hl (k, v) (List.mem_cons_self _ _)

/-- All OpenAI rates, including the default tier, are non-negative. -/
theorem openai_tier_nonneg (model : String) :
    0 ≤ ((OpenAIAdapter.pricing.lookup model).getD ⟨2.50, 10.00⟩).input ∧
    0 ≤ ((OpenAIAdapter.pricing.lookup model).getD ⟨2.50, 10.00⟩).output := by
  refine lookup_tier_nonneg _ ⟨by norm_num, by norm_num⟩ model _ ?_
  intro p hp
  simp only [OpenAIAdapter.pricing, List.mem_cons, List.not_mem_nil, or_false] at hp
  rcases hp with rfl | rfl | rfl <;> exact ⟨by norm_num, by norm_num⟩

/-- All Gemini rates, including the default tier, are non-negative. -/
theorem gemini_tier_nonneg (model : String) :
    0 ≤ ((GeminiAdapter.pricing.lookup model).getD ⟨0.50, 3.00⟩).input ∧
    0 ≤ ((GeminiAdapter.pricing.lookup model).getD ⟨0.50, 3.00⟩).output := by
  refine lookup_tier_nonneg _ ⟨by norm_num, by norm_num⟩ model _ ?_
  intro p hp
  simp only [GeminiAdapter.pricing, List.mem_cons, List.not_mem_nil, or_false] at hp
  rcases hp with rfl | rfl | rfl | rfl <;> exact ⟨by norm_num, by norm_num⟩

/-- All Claude rates, including the default tier, are non-negative. -/
theorem claude_tier_nonneg (model : String) :
    0 ≤ ((ClaudeAdapter.pricing.lookup model).getD ⟨3.00, 15.00⟩).input ∧
    0 ≤ ((ClaudeAdapter.pricing.lookup model).getD ⟨3.00, 15.00⟩).output := by
  refine lookup_tier_nonneg _ ⟨by norm_num, by norm_num⟩ model _ ?_
  intro p hp
  simp only [ClaudeAdapter.pricing, List.mem_cons, List.not_mem_nil, or_false] at hp
  rcases hp with rfl | rfl | rfl <;> exact ⟨by norm_num, by norm_num⟩

/-- Each adapter's calculate_cost is definitionally the quantized spec
formula at the looked-up tier (OpenAI form). -/
theorem openai_cost_as_quantize (u : Usage) (model : String) :
    OpenAIAdapter.calculate_cost u model =
      quantize6 (specCostFormula ((OpenAIAdapter.pricing.lookup model).getD ⟨2.50, 10.00⟩)
        OpenAIAdapter.PROFIT_MARGIN OpenAIAdapter.USD_TO_CREDITS_RATE u) := rfl

/-- Gemini form of the same identity. -/
theorem gemini_cost_as_quantize (u : Usage) (model : String) :
    GeminiAdapter.calculate_cost u model =
      quantize6 (specCostFormula ((GeminiAdapter.pricing.lookup model).getD ⟨0.50, 3.00⟩)
        GeminiAdapter.PROFIT_MARGIN GeminiAdapter.USD_TO_CREDITS_RATE u) := rfl

/-- Claude form of the same identity. -/
theorem claude_cost_as_quantize (u : Usage) (model : String) :
    ClaudeAdapter.calculate_cost u model =
      quantize6 (specCostFormula ((ClaudeAdapter.pricing.lookup model).getD ⟨3.00, 15.00⟩)
        ClaudeAdapter.PROFIT_MARGIN ClaudeAdapter.USD_TO_CREDITS_RATE u) := rfl

/-- The spec formula is monotone in both token counts when all factors are
non-negative. -/
theorem specCostFormula_mono (tier : PriceTier) (margin rate : ℚ) (hin : 0 ≤ tier.input)
    (hout : 0 ≤ tier.output) (hm : 0 ≤ margin) (hr : 0 ≤ rate) {u v : Usage}
    (hp : u.prompt_tokens ≤ v.prompt_tokens) (hc : u.completion_tokens ≤ v.completion_tokens) :
    specCostFormula tier margin rate u ≤ specCostFormula tier margin rate v := by
  unfold specCostFormula
  have hp2 : ((u.prompt_tokens : ℚ)) ≤ (v.prompt_tokens : ℚ) := Nat.cast_le.mpr hp
  have hc2 : ((u.completion_tokens : ℚ)) ≤ (v.completion_tokens : ℚ) := Nat.cast_le.mpr hc
  apply mul_le_mul_of_nonneg_right _ hr
  apply mul_le_mul_of_nonneg_right _ hm
  apply add_le_add
  · exact mul_le_mul_of_nonneg_right
      ((div_le_div_iff_of_pos_right (by norm_num : (0:ℚ) < 1000000)).mpr hp2) hin
  · exact mul_le_mul_of_nonneg_right
      ((div_le_div_iff_of_pos_right (by norm_num : (0:ℚ) < 1000000)).mpr hc2) hout

/-- C3 (amended): each backend's calculate_cost equals the spec cost
formula quantized to 6 decimal places with ties-to-even rounding — which
rounds to the nearest representable value, within 5e-7 of the true cost, but
can fall below it — and a model absent from the backend's pricing table is
priced at that backend's designated default tier instead of raising. -/
theorem calculate_cost_formula (u : Usage) (model : String) :
    (OpenAIAdapter.calculate_cost u model =
        quantize6 (specCostFormula ((OpenAIAdapter.pricing.lookup model).getD ⟨2.50, 10.00⟩)
          OpenAIAdapter.PROFIT_MARGIN OpenAIAdapter.USD_TO_CREDITS_RATE u) ∧
      |OpenAIAdapter.calculate_cost u model -
          specCostFormula ((OpenAIAdapter.pricing.lookup model).getD ⟨2.50, 10.00⟩)
            OpenAIAdapter.PROFIT_MARGIN OpenAIAdapter.USD_TO_CREDITS_RATE u| ≤ 1/2000000 ∧
      (OpenAIAdapter.pricing.lookup model = none →
        OpenAIAdapter.calculate_cost u model = OpenAIAdapter.calculate_cost u "gpt-5.2")) ∧
    (GeminiAdapter.calculate_cost u model =
        quantize6 (specCostFormula ((GeminiAdapter.pricing.lookup model).getD ⟨0.50, 3.00⟩)
          GeminiAdapter.PROFIT_MARGIN GeminiAdapter.USD_TO_CREDITS_RATE u) ∧
      |GeminiAdapter.calculate_cost u model -
          specCostFormula ((GeminiAdapter.pricing.lookup model).getD ⟨0.50, 3.00⟩)
            GeminiAdapter.PROFIT_MARGIN GeminiAdapter.USD_TO_CREDITS_RATE u| ≤ 1/2000000 ∧
      (GeminiAdapter.pricing.lookup model = none →
        GeminiAdapter.calculate_cost u model =
          GeminiAdapter.calculate_cost u "gemini-3-flash-preview")) ∧
    (ClaudeAdapter.calculate_cost u model =
        quantize6 (specCostFormula ((ClaudeAdapter.pricing.lookup model).getD ⟨3.00, 15.00⟩)
          ClaudeAdapter.PROFIT_MARGIN ClaudeAdapter.USD_TO_CREDITS_RATE u) ∧
      |ClaudeAdapter.calculate_cost u model -
          specCostFormula ((ClaudeAdapter.pricing.lookup model).getD ⟨3.00, 15.00⟩)
            ClaudeAdapter.PROFIT_MARGIN ClaudeAdapter.USD_TO_CREDITS_RATE u| ≤ 1/2000000 ∧
      (ClaudeAdapter.pricing.lookup model = none →
        ClaudeAdapter.calculate_cost u model =
          ClaudeAdapter.calculate_cost u "claude-4.5-sonnet")) := by
  refine ⟨⟨openai_cost_as_quantize u model, ?_, fun h => ?_⟩,
          ⟨gemini_cost_as_quantize u model, ?_, fun h => ?_⟩,
          ⟨claude_cost_as_quantize u model, ?_, fun h => ?_⟩⟩
  · rw [openai_cost_as_quantize u model]; exact quantize6_err _
  · unfold OpenAIAdapter.calculate_cost; rw [h]; rfl
  · rw [gemini_cost_as_quantize u model]; exact quantize6_err _
  · unfold GeminiAdapter.calculate_cost; rw [h]; rfl
  · rw [claude_cost_as_quantize u model]; exact quantize6_err _
  · unfold ClaudeAdapter.calculate_cost; rw [h]; rfl


/-- C3 witness at a concrete input and a model missing from every table. -/
theorem calculate_cost_formula_witness :
    OpenAIAdapter.calculate_cost ⟨1, 2⟩ "not-a-model" =
      quantize6 (specCostFormula ((OpenAIAdapter.pricing.lookup "not-a-model").getD ⟨2.50, 10.00⟩)
        OpenAIAdapter.PROFIT_MARGIN OpenAIAdapter.USD_TO_CREDITS_RATE ⟨1, 2⟩) ∧
    OpenAIAdapter.calculate_cost ⟨1, 2⟩ "not-a-model" =
      OpenAIAdapter.calculate_cost ⟨1, 2⟩ "gpt-5.2" ∧
    GeminiAdapter.calculate_cost ⟨1, 2⟩ "not-a-model" =
      GeminiAdapter.calculate_cost ⟨1, 2⟩ "gemini-3-flash-preview" ∧
    ClaudeAdapter.calculate_cost ⟨1, 2⟩ "not-a-model" =
      ClaudeAdapter.calculate_cost ⟨1, 2⟩ "claude-4.5-sonnet" := by
  have h := calculate_cost_formula ⟨1, 2⟩ "not-a-model"
  exact ⟨h.1.1, h.1.2.2 rfl, h.2.1.2.2 rfl, h.2.2.2.2 rfl⟩

/-- C3 counterexample: for the Gemini backend at one prompt token of
gemini-2.5-pro the quantized price is strictly below the unrounded true
cost, refuting the claim that rounding never yields a value below it. -/
theorem cost_rounds_below_true_counterexample :
    GeminiAdapter.calculate_cost ⟨1, 0⟩ "gemini-2.5-pro" <
      specCostFormula ⟨1.88, 12.50⟩ GeminiAdapter.PROFIT_MARGIN
        GeminiAdapter.USD_TO_CREDITS_RATE ⟨1, 0⟩ ∧
    (GeminiAdapter.pricing.lookup "gemini-2.5-pro").getD ⟨0.50, 3.00⟩ = ⟨1.88, 12.50⟩ := by
  have hl : (GeminiAdapter.pricing.lookup "gemini-2.5-pro").getD ⟨0.50, 3.00⟩ =
      (⟨1.88, 12.50⟩ : PriceTier) := rfl
  constructor
  · rw [gemini_cost_as_quantize ⟨1, 0⟩ "gemini-2.5-pro", hl]
    simp only [quantize6, roundHalfEven, specCostFormula, GeminiAdapter.PROFIT_MARGIN,
      GeminiAdapter.USD_TO_CREDITS_RATE]
    norm_num [Int.fract]
  · exact hl

/-- C7: for every backend and model, calculate_cost is monotone: raising
either token count never lowers the quantized price. -/
theorem calculate_cost_monotone (model : String) (u v : Usage)
    (hp : u.prompt_tokens ≤ v.prompt_tokens)
    (hc : u.completion_tokens ≤ v.completion_tokens) :
    OpenAIAdapter.calculate_cost u model ≤ OpenAIAdapter.calculate_cost v model ∧
    GeminiAdapter.calculate_cost u model ≤ GeminiAdapter.calculate_cost v model ∧
    ClaudeAdapter.calculate_cost u model ≤ ClaudeAdapter.calculate_cost v model := by
  refine ⟨?_, ?_, ?_⟩
  · rw [openai_cost_as_quantize u model, openai_cost_as_quantize v model]
    have ht := openai_tier_nonneg model
    exact quantize6_mono (specCostFormula_mono _ _ _ ht.1 ht.2 (by norm_num [OpenAIAdapter.PROFIT_MARGIN]) (by norm_num [OpenAIAdapter.USD_TO_CREDITS_RATE]) hp hc)
  · rw [gemini_cost_as_quantize u model, gemini_cost_as_quantize v model]
    have ht := gemini_tier_nonneg model
    exact quantize6_mono (specCostFormula_mono _ _ _ ht.1 ht.2 (by norm_num [GeminiAdapter.PROFIT_MARGIN]) (by norm_num [GeminiAdapter.USD_TO_CREDITS_RATE]) hp hc)
  · rw [claude_cost_as_quantize u model, claude_cost_as_quantize v model]
    have ht := claude_tier_nonneg model
    exact quantize6_mono (specCostFormula_mono _ _ _ ht.1 ht.2 (by norm_num [ClaudeAdapter.PROFIT_MARGIN]) (by norm_num [ClaudeAdapter.USD_TO_CREDITS_RATE]) hp hc)

/-- C7 witness at concrete token counts. -/
theorem calculate_cost_monotone_witness :
    OpenAIAdapter.calculate_cost ⟨10, 20⟩ "gpt-5.2" ≤
      OpenAIAdapter.calculate_cost ⟨15, 21⟩ "gpt-5.2" ∧
    GeminiAdapter.calculate_cost ⟨10, 20⟩ "gpt-5.2" ≤
      GeminiAdapter.calculate_cost ⟨15, 21⟩ "gpt-5.2" ∧
    ClaudeAdapter.calculate_cost ⟨10, 20⟩ "gpt-5.2" ≤
      ClaudeAdapter.calculate_cost ⟨15, 21⟩ "gpt-5.2" :=
  calculate_cost_monotone "gpt-5.2" ⟨10, 20⟩ ⟨15, 21⟩ (by decide) (by decide)

/-- The boolean dedup test agrees with the spec-side description of the
condition. -/
theorem lastMatches_iff (h : List ChatMessage) (t : String) :
    lastMatchesCurrent h t = true ↔
      ∃ m, h.getLast? = some m ∧ m.role = "user" ∧
        (m.content.head?.map ContentBlock.text) = some t := by
  unfold lastMatchesCurrent
  cases hm : h.getLast? with
  | none => simp
  | some m =>
    cases hc : m.content.head? with
    | none => simp [hc]
    | some b => simp [hc, Bool.and_eq_true, beq_iff_eq]

/-- C9: building the per-turn context replaces the last history entry by the
attachment-resolved current message exactly when that entry is a user turn
whose first-block text equals the current text, appends it otherwise, and in
either case the resolved current message occurs exactly once and last. -/
theorem buildContext_dedup (conversation_history : List ChatMessage)
    (latest_msg : ChatMessage) (user_text : String)
    (hfresh : latest_msg ∉ conversation_history) :
    ((∃ m, conversation_history.getLast? = some m ∧ m.role = "user" ∧
        (m.content.head?.map ContentBlock.text) = some user_text) →
      buildContext conversation_history latest_msg user_text =
        conversation_history.dropLast ++ [latest_msg]) ∧
    (¬(∃ m, conversation_history.getLast? = some m ∧ m.role = "user" ∧
        (m.content.head?.map ContentBlock.text) = some user_text) →
      buildContext conversation_history latest_msg user_text =
        conversation_history ++ [latest_msg]) ∧
    (buildContext conversation_history latest_msg user_text).count latest_msg = 1 ∧
    (buildContext conversation_history latest_msg user_text).getLast? = some latest_msg := by
  have hnotin_drop : latest_msg ∉ conversation_history.dropLast := fun hm =>
    hfresh ((List.dropLast_sublist _).subset hm)
  refine ⟨fun hcond => ?_, fun hcond => ?_, ?_, ?_⟩
  · unfold buildContext
    rw [if_pos ((lastMatches_iff _ _).mpr hcond)]
  · unfold buildContext
    rw [if_neg (fun hb => hcond ((lastMatches_iff _ _).mp hb))]
  · unfold buildContext
    split_ifs
    · rw [List.count_append]
      simp [List.count_eq_zero.mpr hnotin_drop]
    · rw [List.count_append]
      simp [List.count_eq_zero.mpr hfresh]
  · unfold buildContext
    split_ifs
    · exact List.getLast?_concat _
    · exact List.getLast?_concat _

/-- C9 witness: a cached plain-text user turn with the same text is replaced
by the attachment-resolved current message. -/
theorem buildContext_dedup_witness :
    buildContext [ChatMessage.from_text "user" "hi"]
        ⟨"user", [⟨"hi"⟩], [⟨"text", "blob", none⟩]⟩ "hi" =
      [(⟨"user", [⟨"hi"⟩], [⟨"text", "blob", none⟩]⟩ : ChatMessage)] ∧
    (buildContext [ChatMessage.from_text "user" "hi"]
        ⟨"user", [⟨"hi"⟩], [⟨"text", "blob", none⟩]⟩ "hi").count
      ⟨"user", [⟨"hi"⟩], [⟨"text", "blob", none⟩]⟩ = 1 := by
  have h := buildContext_dedup [ChatMessage.from_text "user" "hi"]
    ⟨"user", [⟨"hi"⟩], [⟨"text", "blob", none⟩]⟩ "hi" (by decide)
  exact ⟨h.1 ⟨ChatMessage.from_text "user" "hi", rfl, rfl, rfl⟩, h.2.2.1⟩

/-- The decision tree of the score-based route, exactly as the spec lists
the cases. -/
theorem route_by_score_cases (prompt : String) :
    ((ModelRouter.route_by_score prompt = "claude-4.5-opus") ↔
        (0 < ModelRouter.calculateScore prompt ModelRouter.CODING_PATTERNS ∧
         Nat.max (ModelRouter.calculateScore prompt ModelRouter.REASONING_PATTERNS)
             (Nat.max (ModelRouter.calculateScore prompt ModelRouter.CREATIVE_PATTERNS)
               (ModelRouter.calculateScore prompt ModelRouter.DATA_PATTERNS)) ≤
           ModelRouter.calculateScore prompt ModelRouter.CODING_PATTERNS)) ∧
    (¬(0 < ModelRouter.calculateScore prompt ModelRouter.CODING_PATTERNS ∧
         Nat.max (ModelRouter.calculateScore prompt ModelRouter.REASONING_PATTERNS)
             (Nat.max (ModelRouter.calculateScore prompt ModelRouter.CREATIVE_PATTERNS)
               (ModelRouter.calculateScore prompt ModelRouter.DATA_PATTERNS)) ≤
           ModelRouter.calculateScore prompt ModelRouter.CODING_PATTERNS) →
      (((0 < ModelRouter.calculateScore prompt ModelRouter.DATA_PATTERNS ∧
          Nat.max (ModelRouter.calculateScore prompt ModelRouter.REASONING_PATTERNS)
              (ModelRouter.calculateScore prompt ModelRouter.CREATIVE_PATTERNS) ≤
            ModelRouter.calculateScore prompt ModelRouter.DATA_PATTERNS) ∨
          4000 < prompt.length) →
        ModelRouter.route_by_score prompt = "gemini-2.5-pro") ∧
      (¬((0 < ModelRouter.calculateScore prompt ModelRouter.DATA_PATTERNS ∧
          Nat.max (ModelRouter.calculateScore prompt ModelRouter.REASONING_PATTERNS)
              (ModelRouter.calculateScore prompt ModelRouter.CREATIVE_PATTERNS) ≤
            ModelRouter.calculateScore prompt ModelRouter.DATA_PATTERNS) ∨
          4000 < prompt.length) →
        ((0 < ModelRouter.calculateScore prompt ModelRouter.REASONING_PATTERNS ∧
            Nat.max (ModelRouter.calculateScore prompt ModelRouter.CREATIVE_PATTERNS)
                (ModelRouter.calculateScore prompt ModelRouter.DATA_PATTERNS) ≤
              ModelRouter.calculateScore prompt ModelRouter.REASONING_PATTERNS →
          ModelRouter.route_by_score prompt = "gpt-5.2-pro") ∧
         (¬(0 < ModelRouter.calculateScore prompt ModelRouter.REASONING_PATTERNS ∧
            Nat.max (ModelRouter.calculateScore prompt ModelRouter.CREATIVE_PATTERNS)
                (ModelRouter.calculateScore prompt ModelRouter.DATA_PATTERNS) ≤
              ModelRouter.calculateScore prompt ModelRouter.REASONING_PATTERNS) →
          ((0 < ModelRouter.calculateScore prompt ModelRouter.CREATIVE_PATTERNS →
             ModelRouter.route_by_score prompt = "gemini-2.5-pro") ∧
           (¬(0 < ModelRouter.calculateScore prompt ModelRouter.CREATIVE_PATTERNS) →
             ((prompt.length < 150 →
                ModelRouter.route_by_score prompt = "gemini-3-flash-preview") ∧
              (¬(prompt.length < 150) →
                ModelRouter.route_by_score prompt = "gpt-5.2")))))))) := by
  unfold ModelRouter.route_by_score
  dsimp only
  split_ifs with h1 h2 h3 h4 h5
  · exact ⟨iff_of_true rfl h1, fun hn => absurd h1 hn⟩
  · exact ⟨iff_of_false (by decide) h1, fun _ => ⟨fun _ => rfl, fun hn2 => absurd h2 hn2⟩⟩
  · exact ⟨iff_of_false (by decide) h1, fun _ => ⟨fun hd => absurd hd h2,
      fun _ => ⟨fun _ => rfl, fun hn3 => absurd h3 hn3⟩⟩⟩
  · exact ⟨iff_of_false (by decide) h1, fun _ => ⟨fun hd => absurd hd h2,
      fun _ => ⟨fun hr => absurd hr h3, fun _ => ⟨fun _ => rfl, fun hn4 => absurd h4 hn4⟩⟩⟩⟩
  · exact ⟨iff_of_false (by decide) h1, fun _ => ⟨fun hd => absurd hd h2,
      fun _ => ⟨fun hr => absurd hr h3, fun _ => ⟨fun hc => absurd hc h4,
        fun _ => ⟨fun _ => rfl, fun hn5 => absurd h5 hn5⟩⟩⟩⟩⟩
  · exact ⟨iff_of_false (by decide) h1, fun _ => ⟨fun hd => absurd hd h2,
      fun _ => ⟨fun hr => absurd hr h3, fun _ => ⟨fun hc => absurd hc h4,
        fun _ => ⟨fun h150 => absurd h150 h5, fun _ => rfl⟩⟩⟩⟩⟩

/-- C4 (amended): determine_model is a pure function of (prompt,
preference); every non-empty preference other than "auto"
(case-insensitively) is returned unchanged regardless of the prompt, while a
missing, empty, or "auto" preference yields the score-based route, whose
decision tree over the four regex-match-count scores is exactly the
priority chain coding, data-or-long-context, reasoning, creative,
short-turn-fast, balanced default. -/
theorem determine_model_characterization (prompt : String) (pref : Option String) :
    (∀ p, pref = some p → p ≠ "" → strLower p ≠ "auto" →
        ModelRouter.determine_model prompt pref = p) ∧
    ((pref = none ∨ pref = some "" ∨ (∃ p, pref = some p ∧ strLower p = "auto")) →
      ModelRouter.determine_model prompt pref = ModelRouter.route_by_score prompt) ∧
    ((ModelRouter.route_by_score prompt = "claude-4.5-opus") ↔
        (0 < ModelRouter.calculateScore prompt ModelRouter.CODING_PATTERNS ∧
         Nat.max (ModelRouter.calculateScore prompt ModelRouter.REASONING_PATTERNS)
             (Nat.max (ModelRouter.calculateScore prompt ModelRouter.CREATIVE_PATTERNS)
               (ModelRouter.calculateScore prompt ModelRouter.DATA_PATTERNS)) ≤
           ModelRouter.calculateScore prompt ModelRouter.CODING_PATTERNS)) ∧
    (¬(0 < ModelRouter.calculateScore prompt ModelRouter.CODING_PATTERNS ∧
         Nat.max (ModelRouter.calculateScore prompt ModelRouter.REASONING_PATTERNS)
             (Nat.max (ModelRouter.calculateScore prompt ModelRouter.CREATIVE_PATTERNS)
               (ModelRouter.calculateScore prompt ModelRouter.DATA_PATTERNS)) ≤
           ModelRouter.calculateScore prompt ModelRouter.CODING_PATTERNS) →
      (((0 < ModelRouter.calculateScore prompt ModelRouter.DATA_PATTERNS ∧
          Nat.max (ModelRouter.calculateScore prompt ModelRouter.REASONING_PATTERNS)
              (ModelRouter.calculateScore prompt ModelRouter.CREATIVE_PATTERNS) ≤
            ModelRouter.calculateScore prompt ModelRouter.DATA_PATTERNS) ∨
          4000 < prompt.length) →
        ModelRouter.route_by_score prompt = "gemini-2.5-pro") ∧
      (¬((0 < ModelRouter.calculateScore prompt ModelRouter.DATA_PATTERNS ∧
          Nat.max (ModelRouter.calculateScore prompt ModelRouter.REASONING_PATTERNS)
              (ModelRouter.calculateScore prompt ModelRouter.CREATIVE_PATTERNS) ≤
            ModelRouter.calculateScore prompt ModelRouter.DATA_PATTERNS) ∨
          4000 < prompt.length) →
        ((0 < ModelRouter.calculateScore prompt ModelRouter.REASONING_PATTERNS ∧
            Nat.max (ModelRouter.calculateScore prompt ModelRouter.CREATIVE_PATTERNS)
                (ModelRouter.calculateScore prompt ModelRouter.DATA_PATTERNS) ≤
              ModelRouter.calculateScore prompt ModelRouter.REASONING_PATTERNS →
          ModelRouter.route_by_score prompt = "gpt-5.2-pro") ∧
         (¬(0 < ModelRouter.calculateScore prompt ModelRouter.REASONING_PATTERNS ∧
            Nat.max (ModelRouter.calculateScore prompt ModelRouter.CREATIVE_PATTERNS)
                (ModelRouter.calculateScore prompt ModelRouter.DATA_PATTERNS) ≤
              ModelRouter.calculateScore prompt ModelRouter.REASONING_PATTERNS) →
          ((0 < ModelRouter.calculateScore prompt ModelRouter.CREATIVE_PATTERNS →
             ModelRouter.route_by_score prompt = "gemini-2.5-pro") ∧
           (¬(0 < ModelRouter.calculateScore prompt ModelRouter.CREATIVE_PATTERNS) →
             ((prompt.length < 150 →
                ModelRouter.route_by_score prompt = "gemini-3-flash-preview") ∧
              (¬(prompt.length < 150) →
                ModelRouter.route_by_score prompt = "gpt-5.2")))))))) := by
  have hcases := route_by_score_cases prompt
  refine ⟨?_, ?_, hcases.1, hcases.2⟩
  · intro p hp hne hna
    subst hp
    show (if p ≠ "" ∧ strLower p ≠ "auto" then p else ModelRouter.route_by_score prompt) = p
    rw [if_pos ⟨hne, hna⟩]
  · rintro (rfl | rfl | ⟨p, rfl, ha⟩)
    · rfl
    · show (if ("" : String) ≠ "" ∧ strLower "" ≠ "auto" then ("" : String)
          else ModelRouter.route_by_score prompt) = ModelRouter.route_by_score prompt
      rw [if_neg (fun hx => hx.1 rfl)]
    · show (if p ≠ "" ∧ strLower p ≠ "auto" then p else ModelRouter.route_by_score prompt) =
          ModelRouter.route_by_score prompt
      rw [if_neg (fun hx => hx.2 ha)]

/-- C4 witness: an explicit preference is returned unchanged; an
all-capitals "AUTO" preference falls through to scoring. -/
theorem determine_model_characterization_witness :
    ModelRouter.determine_model "python" (some "gpt-5.2") = "gpt-5.2" ∧
    ModelRouter.determine_model "solve it" (some "AUTO") =
      ModelRouter.route_by_score "solve it" := by
  refine ⟨(determine_model_characterization "python" (some "gpt-5.2")).1 "gpt-5.2" rfl
      (by decide) (by decide), ?_⟩
  exact (determine_model_characterization "solve it" (some "AUTO")).2.1
    (Or.inr (Or.inr ⟨"AUTO", rfl, by decide⟩))

/-- C4 counterexample: the empty string is a preference that differs from
"auto" case-insensitively, yet it is not returned unchanged — Python
truthiness sends it to scoring, which picks the coding model here. -/
theorem empty_preference_counterexample :
    strLower "" ≠ "auto" ∧
    ModelRouter.determine_model "python" (some "") = "claude-4.5-opus" ∧
    ModelRouter.determine_model "python" (some "") ≠ "" := by
  refine ⟨by decide, by decide, by decide⟩

/-- An "auto" preference falls through to the score-based route
(the connection parameter defaults to "auto" in chat.py line 215). -/
theorem determine_model_auto (prompt : String) :
    ModelRouter.determine_model prompt (some "auto") = ModelRouter.route_by_score prompt := by
  show (if ("auto" : String) ≠ "" ∧ strLower "auto" ≠ "auto" then ("auto" : String)
      else ModelRouter.route_by_score prompt) = ModelRouter.route_by_score prompt
  rw [if_neg]
  intro hx
  exact hx.2 (by decide)

/-- Every model the score-based route can produce is supported by the
provider registry. -/
theorem factory_supports_routed (prompt : String) (u : Usage) :
    ∃ c, LLMFactory.calculateCost (ModelRouter.route_by_score prompt) u = some c := by
  unfold ModelRouter.route_by_score
  dsimp only
  split_ifs <;> exact ⟨_, rfl⟩

/-- C8: a malformed frame yields exactly one protocol-error frame, performs
no store write, leaves the session state (connection, chat, balance)
unchanged, and the remaining frames are processed exactly as if the
malformed frame had never arrived. -/
theorem malformed_frame_recoverable (st : GatewayState) (ev : TurnEvents)
    (rest : List (ClientFrame × TurnEvents)) (h : st.is_connected = true) :
    loopStep st ClientFrame.malformed ev =
      (st, [OutFrame.errorFrame "Invalid message format"], []) ∧
    runLoop st ((ClientFrame.malformed, ev) :: rest) =
      ((runLoop st rest).1,
       OutFrame.errorFrame "Invalid message format" :: (runLoop st rest).2.1,
       (runLoop st rest).2.2) := by
  refine ⟨rfl, ?_⟩
  simp [runLoop, loopStep, h]

/-- C8 witness at a concrete session and follow-up frame list. -/
theorem malformed_frame_recoverable_witness :
    loopStep ⟨true, "auto", none, 5⟩ ClientFrame.malformed ⟨0, "", ⟨0, 0⟩, .completed⟩ =
      (⟨true, "auto", none, 5⟩, [OutFrame.errorFrame "Invalid message format"], []) ∧
    runLoop ⟨true, "auto", none, 5⟩
        [(ClientFrame.malformed, ⟨0, "", ⟨0, 0⟩, .completed⟩)] =
      ((runLoop ⟨true, "auto", none, 5⟩ []).1,
       OutFrame.errorFrame "Invalid message format" ::
         (runLoop ⟨true, "auto", none, 5⟩ []).2.1,
       (runLoop ⟨true, "auto", none, 5⟩ []).2.2) :=
  malformed_frame_recoverable ⟨true, "auto", none, 5⟩ ⟨0, "", ⟨0, 0⟩, .completed⟩ [] rfl

/-- C1 (amended): usage validation (chat.py line 485) runs before the
zero-usage skip check (line 486), so a turn in which the provider streamed
no text and reported zero usage is a pure no-op — no debit, no AI message,
balance untouched, loop continuing — precisely when the user prompt text is
empty as well; with a non-empty prompt the estimator makes the usage
non-zero and the turn is billed. -/
theorem noop_turn_requires_empty_prompt (st : GatewayState) (ev : TurnEvents)
    (content : String) (hconn : st.is_connected = true) (hpref : st.preference = "auto")
    (hstream : ev.streamed = "") (husage : ev.reported = ⟨0, 0⟩)
    (hout : ev.outcome = StreamOutcome.timeout) :
    (content = "" →
      (loopStep st (ClientFrame.valid ⟨"user_message", content⟩) ev).2.2.all
          (fun e => e.isBilling = false) = true ∧
      (loopStep st (ClientFrame.valid ⟨"user_message", content⟩) ev).1.balance = st.balance ∧
      (loopStep st (ClientFrame.valid ⟨"user_message", content⟩) ev).1.is_connected = true) ∧
    (content ≠ "" →
      ∃ c, DbEffect.debitWallet c ∈
        (loopStep st (ClientFrame.valid ⟨"user_message", content⟩) ev).2.2) := by
  obtain ⟨conn, pref, chatid, bal⟩ := st
  obtain ⟨nid, streamed, rep, outc⟩ := ev
  dsimp only at hconn hpref hstream husage hout
  subst hconn hpref hstream husage hout
  constructor
  · rintro rfl
    cases chatid <;>
      simp [loopStep, processTurn, pyStripEmpty, Usage.ensure_validity, Usage.total_tokens,
        DbEffect.isBilling]
  · intro hne
    have hdm := determine_model_auto content
    have hv : Usage.ensure_validity ⟨0, 0⟩ content "" = ⟨ceilDiv4 content.length, 0⟩ := by
      simp [Usage.ensure_validity, hne]
    have htot : (Usage.ensure_validity ⟨0, 0⟩ content "").total_tokens ≠ 0 := by
      rw [hv]
      have := ceilDiv4_pos (strLengthPos hne)
      simp [Usage.total_tokens]
      omega
    obtain ⟨c, hc⟩ := factory_supports_routed content (Usage.ensure_validity ⟨0, 0⟩ content "")
    refine ⟨c, ?_⟩
    cases chatid <;>
      simp [loopStep, processTurn, hdm, hc, htot, pyStripEmpty]

/-- C1 witness: the amended theorem applied at a concrete session and a
concrete timed-out empty turn. -/
theorem noop_turn_requires_empty_prompt_witness :
    (("" : String) = "" →
      (loopStep ⟨true, "auto", some 1, 100⟩
          (ClientFrame.valid ⟨"user_message", ""⟩) ⟨1, "", ⟨0, 0⟩, .timeout⟩).2.2.all
          (fun e => e.isBilling = false) = true ∧
      (loopStep ⟨true, "auto", some 1, 100⟩
          (ClientFrame.valid ⟨"user_message", ""⟩) ⟨1, "", ⟨0, 0⟩, .timeout⟩).1.balance = 100 ∧
      (loopStep ⟨true, "auto", some 1, 100⟩
          (ClientFrame.valid ⟨"user_message", ""⟩)
          ⟨1, "", ⟨0, 0⟩, .timeout⟩).1.is_connected = true) ∧
    (("" : String) ≠ "" →
      ∃ c, DbEffect.debitWallet c ∈
        (loopStep ⟨true, "auto", some 1, 100⟩
            (ClientFrame.valid ⟨"user_message", ""⟩) ⟨1, "", ⟨0, 0⟩, .timeout⟩).2.2) :=
  noop_turn_requires_empty_prompt ⟨true, "auto", some 1, 100⟩ ⟨1, "", ⟨0, 0⟩, .timeout⟩ ""
    rfl rfl rfl rfl rfl

/-- C1 counterexample: a timed-out turn with empty stream and zero reported
usage, but a non-empty prompt, is billed (estimated prompt token) and an
empty-content AI message is persisted — refuting the claim that such a turn
performs no debit and persists nothing. -/
theorem noop_turn_billed_on_timeout_counterexample :
    (loopStep ⟨true, "auto", some 1, 100⟩
        (ClientFrame.valid ⟨"user_message", "hi"⟩) ⟨1, "", ⟨0, 0⟩, .timeout⟩).2.2 =
      [DbEffect.insertUserMsg 1 "hi" "gemini-3-flash-preview",
       DbEffect.debitWallet (1/50000),
       DbEffect.insertAiMsg 1 "" "gemini-3-flash-preview" (1/50000) 1] ∧
    (loopStep ⟨true, "auto", some 1, 100⟩
        (ClientFrame.valid ⟨"user_message", "hi"⟩) ⟨1, "", ⟨0, 0⟩, .timeout⟩).1.balance =
      100 - 1/50000 := by
  have hroute : ModelRouter.determine_model "hi" (some "auto") = "gemini-3-flash-preview" := by
    decide
  have hval : Usage.ensure_validity ⟨0, 0⟩ "hi" "" = ⟨1, 0⟩ := by decide
  have hcost : GeminiAdapter.calculate_cost ⟨1, 0⟩ "gemini-3-flash-preview" = 1/50000 := by
    rw [gemini_cost_as_quantize]
    have hl : (GeminiAdapter.pricing.lookup "gemini-3-flash-preview").getD ⟨0.50, 3.00⟩ =
        (⟨0.50, 3.00⟩ : PriceTier) := rfl
    rw [hl]
    simp only [quantize6, roundHalfEven, specCostFormula, GeminiAdapter.PROFIT_MARGIN,
      GeminiAdapter.USD_TO_CREDITS_RATE]
    norm_num [Int.fract]
  have hfac : LLMFactory.calculateCost "gemini-3-flash-preview" ⟨1, 0⟩ = some (1/50000) := by
    simp [LLMFactory.calculateCost, strLower, strStartsWith, hcost]
  constructor <;>
    simp [loopStep, processTurn, hroute, hval, hfac, pyStripEmpty, Usage.total_tokens,
      walletDebit]

/-- C2 (amended): the balance gate is enforced at connect time only — a
session never opens without a wallet of strictly positive balance — but it
is not re-checked before later turns of the same connection, which can
therefore start with balance ≤ 0 after an overdraft debit. -/
theorem balance_gate_connect_time (preference : String) (chatParam : Option Nat)
    (wallet : Option ℚ) (st : GatewayState)
    (h : openSession preference chatParam wallet = some st) :
    0 < st.balance ∧ st.is_connected = true := by
  unfold openSession at h
  cases wallet with
  | none => exact absurd h (by simp)
  | some credits =>
    dsimp only at h
    by_cases hc : credits ≤ 0
    · rw [if_pos hc] at h
      exact absurd h (by simp)
    · rw [if_neg hc] at h
      simp only [Option.some.injEq] at h
      subst h
      exact ⟨not_le.mp hc, rfl⟩

/-- C2 witness at a concrete connect. -/
theorem balance_gate_connect_time_witness :
    0 < (⟨true, "auto", some 1, 5⟩ : GatewayState).balance ∧
    (⟨true, "auto", some 1, 5⟩ : GatewayState).is_connected = true :=
  balance_gate_connect_time "auto" (some 1) (some 5) ⟨true, "auto", some 1, 5⟩ rfl

/-- C2 counterexample: a wallet of 5 credits passes the connect gate; the
first turn costs 6.00012 credits, leaving the balance at −1.00012 with the
connection still open; the next user turn is then started — routed and
debited — with balance ≤ 0, refuting the per-turn reading of the gate. -/
theorem balance_gate_per_turn_counterexample :
    openSession "auto" (some 1) (some 5) = some ⟨true, "auto", some 1, 5⟩ ∧
    (loopStep ⟨true, "auto", some 1, 5⟩ (ClientFrame.valid ⟨"user_message", "hi"⟩)
        ⟨1, "ok", ⟨300000, 0⟩, StreamOutcome.completed⟩).1 =
      ⟨true, "auto", some 1, 5 - 150003/25000⟩ ∧
    ((5 : ℚ) - 150003/25000 ≤ 0) ∧
    OutFrame.systemFrame "route" "gemini-3-flash-preview" ∈
      (loopStep ⟨true, "auto", some 1, 5 - 150003/25000⟩
          (ClientFrame.valid ⟨"user_message", "hi"⟩)
          ⟨1, "ok", ⟨300000, 0⟩, StreamOutcome.completed⟩).2.1 ∧
    DbEffect.debitWallet (150003/25000) ∈
      (loopStep ⟨true, "auto", some 1, 5 - 150003/25000⟩
          (ClientFrame.valid ⟨"user_message", "hi"⟩)
          ⟨1, "ok", ⟨300000, 0⟩, StreamOutcome.completed⟩).2.2 := by
  have hroute : ModelRouter.determine_model "hi" (some "auto") = "gemini-3-flash-preview" := by
    decide
  have hval : Usage.ensure_validity ⟨300000, 0⟩ "hi" "ok" = ⟨300000, 1⟩ := by decide
  have hcost : GeminiAdapter.calculate_cost ⟨300000, 1⟩ "gemini-3-flash-preview" =
      150003/25000 := by
    rw [gemini_cost_as_quantize]
    have hl : (GeminiAdapter.pricing.lookup "gemini-3-flash-preview").getD ⟨0.50, 3.00⟩ =
        (⟨0.50, 3.00⟩ : PriceTier) := rfl
    rw [hl]
    simp only [quantize6, roundHalfEven, specCostFormula, GeminiAdapter.PROFIT_MARGIN,
      GeminiAdapter.USD_TO_CREDITS_RATE]
    norm_num [Int.fract]
  have hfac : LLMFactory.calculateCost "gemini-3-flash-preview" ⟨300000, 1⟩ =
      some (150003/25000) := by
    simp [LLMFactory.calculateCost, strLower, strStartsWith, hcost]
  refine ⟨rfl, ?_, by norm_num, ?_, ?_⟩ <;>
    simp [loopStep, processTurn, hroute, hval, hfac, pyStripEmpty, Usage.total_tokens,
      walletDebit]
